import Mathlib

/-
Formal model of the move-analysis aggregation and scoring pipeline of a
PGN cheat-detection tool (src/analyzer of the repository).

Conventions of the embedding:
* Python floats are modelled as exact rationals (ℚ); decimal literals such
  as 0.6 are the corresponding exact rationals.
* Python dictionaries with optional keys are modelled as structures with
  Option fields; `d.get(k, v)` becomes `(field).getD v`.
* `math.log2` (used only inside the choice-entropy component) is modelled
  as an explicit function parameter `log2q : ℚ → ℚ`, since an exact
  rational embedding of the transcendental log2 does not exist; no theorem
  below depends on its values.
* `numpy.std` (a real square root) is modelled over ℝ with `Real.sqrt`.
* Network / engine calls are modelled as oracle function parameters.
-/

namespace PgnCheat

/-! ## complexity_calculator.py -/

/-- A legal move as seen by the complexity calculator: only the four
classification predicates of python-chess that the source consults. -/
structure PyMove where
  is_capture : Bool
  gives_check : Bool
  promotion : Bool
  is_castling : Bool
deriving DecidableEq

/-- The slice of a python-chess `Board` consulted by `ComplexityCalculator`:
the legal-move list, per-side piece counts, and the king square indices
(`board.king` returns an optional square 0..63; file = square % 8). -/
structure Board where
  legal_moves : List PyMove
  white_pawns : ℕ
  white_knights : ℕ
  white_bishops : ℕ
  white_rooks : ℕ
  white_queens : ℕ
  black_pawns : ℕ
  black_knights : ℕ
  black_bishops : ℕ
  black_rooks : ℕ
  black_queens : ℕ
  white_king : Option ℕ
  black_king : Option ℕ
deriving DecidableEq

/-- An engine score as stored in a top-moves entry: either a plain number,
or a dictionary with optional keys mate and cp. -/
inductive EngineScore where
  | num : ℚ → EngineScore
  | dict : Option ℤ → Option ℚ → EngineScore
deriving DecidableEq

/-- Score extraction of `_calculate_pcs_score` (lines 116-125): a dict whose
mate key is present and nonzero (Python truthiness) becomes ±1000 by mate
direction, otherwise the cp key (default 0) is used. -/
def resolve_score : EngineScore → ℚ
  | .num v => v
  | .dict mate cp =>
      match mate with
      | some m => if m ≠ 0 then (if 0 < m then 1000 else -1000) else cp.getD 0
      | none => cp.getD 0

/-- Models the score lookup (key score, default 0): a top-moves entry is its optional score. -/
def entry_score (e : Option EngineScore) : ℚ :=
  match e with
  | some s => resolve_score s
  | none => 0

/-- The `while len(scores) < 3: scores.append(scores[-1] if scores else 0)`
loop of `_calculate_pcs_score`, unrolled (input length is at most 3). -/
def pad_scores : List ℚ → List ℚ
  | [] => [0, 0, 0]
  | [a] => [a, a, a]
  | [a, b] => [a, b, b]
  | l => l

/-- Embeds `ComplexityCalculator._calculate_pcs_score` (lines 98-138). The
argument models `top_moves_analysis`; a `None` argument at the call site is
the empty list (`top_moves_analysis or []`). -/
def calculate_pcs_score (top_moves_analysis : List (Option EngineScore)) : ℚ :=
  if top_moves_analysis.length < 2 then 0
  else
    let scores := (top_moves_analysis.take 3).map entry_score
    let padded := pad_scores scores
    let score_1 := padded.getD 0 0
    let score_2 := padded.getD 1 0
    let score_3 := padded.getD 2 0
    max 0 (score_1 - score_2) + max 0 (score_1 - score_3) / 2

/-- Embeds `ComplexityCalculator._get_pcs_category` (lines 140-149), with the
threshold constants 30 / 80 / 150 of `self.pcs_thresholds`. -/
def get_pcs_category (pcs_score : ℚ) : String :=
  if pcs_score < 30 then "trivial"
  else if pcs_score < 80 then "balanced"
  else if pcs_score < 150 then "critical"
  else "chaotic"

/-- Embeds `ComplexityCalculator._calculate_tactical_density` (lines 186-215):
the if/elif chain counts a move once if it is a capture, check or
promotion. -/
def calculate_tactical_density (b : Board) : ℚ :=
  if b.legal_moves = [] then 0
  else
    let tactical_moves := b.legal_moves.countP
      (fun m => m.is_capture || m.gives_check || m.promotion)
    let density : ℚ := (tactical_moves : ℚ) / (b.legal_moves.length : ℚ)
    min 1 (density * 1.5)

/-- Embeds `ComplexityCalculator._calculate_choice_entropy` (lines 217-258):
moves are classified by the first matching category of the if/elif chain
(captures, checks, promotions, castling, quiet); Shannon entropy over the
nonzero category counts, normalized by 2.32. -/
def calculate_choice_entropy (log2q : ℚ → ℚ) (b : Board) : ℚ :=
  if b.legal_moves.length ≤ 1 then 0
  else
    let captures := b.legal_moves.countP (fun m => m.is_capture)
    let checks := b.legal_moves.countP (fun m => !m.is_capture && m.gives_check)
    let promotions := b.legal_moves.countP
      (fun m => !m.is_capture && !m.gives_check && m.promotion)
    let castling := b.legal_moves.countP
      (fun m => !m.is_capture && !m.gives_check && !m.promotion && m.is_castling)
    let quiet := b.legal_moves.countP
      (fun m => !m.is_capture && !m.gives_check && !m.promotion && !m.is_castling)
    let total_moves : ℚ := (b.legal_moves.length : ℚ)
    let entropy : ℚ := -(([captures, checks, quiet, castling, promotions].map
      (fun count => if 0 < count then ((count : ℚ) / total_moves) * log2q ((count : ℚ) / total_moves) else 0)).sum)
    min 1 (entropy / 2.32)

/-- Embeds `ComplexityCalculator._analyze_pawn_structure` (lines 282-298). -/
def analyze_pawn_structure (b : Board) : ℚ :=
  let total_pawns : ℕ := b.white_pawns + b.black_pawns
  if total_pawns = 0 then 0
  else
    let base_complexity : ℚ := min 1 ((total_pawns : ℚ) / 16)
    base_complexity * 0.5

/-- Embeds `ComplexityCalculator._analyze_king_safety` (lines 300-316). Note the
source guard `if white_king_sq and black_king_sq` uses Python truthiness,
so a king on square 0 (a1) fails the guard. -/
def analyze_king_safety (b : Board) : ℚ :=
  let truthy : Option ℕ → Bool := fun o =>
    match o with
    | some sq => sq ≠ 0
    | none => false
  let center : Option ℕ → Bool := fun o =>
    match o with
    | some sq => sq % 8 = 3 || sq % 8 = 4
    | none => false
  let complexity : ℚ :=
    if truthy b.white_king && truthy b.black_king &&
       (center b.white_king || center b.black_king) then 0.5 else 0
  min 1 complexity

/-- Embeds `ComplexityCalculator._analyze_material_imbalance` (lines 318-345). -/
def analyze_material_imbalance (b : Board) : ℚ :=
  let white_material : ℕ :=
    b.white_pawns * 1 + b.white_knights * 3 + b.white_bishops * 3 +
    b.white_rooks * 5 + b.white_queens * 9
  let black_material : ℕ :=
    b.black_pawns * 1 + b.black_knights * 3 + b.black_bishops * 3 +
    b.black_rooks * 5 + b.black_queens * 9
  let total_material : ℕ := white_material + black_material
  if total_material = 0 then 0
  else
    let imbalance : ℚ := |(white_material : ℚ) - (black_material : ℚ)|
    min 1 (imbalance / ((total_material : ℚ) * 0.2))

/-- Embeds `ComplexityCalculator._calculate_strategic_factors` (lines 260-280). -/
def calculate_strategic_factors (b : Board) : ℚ :=
  min 1 (analyze_pawn_structure b * 0.4 + analyze_king_safety b * 0.3 +
    analyze_material_imbalance b * 0.3)

/-- Embeds `ComplexityCalculator._normalize_complexity` (lines 151-167), with the
fixed weights 0.60 / 0.20 / 0.15 / 0.05 of `self.weights`. -/
def normalize_complexity (pcs_score tactical_density choice_entropy strategic_factors : ℚ) : ℚ :=
  let normalized_pcs : ℚ := min 1 (pcs_score / 200)
  let complexity : ℚ :=
    normalized_pcs * 0.60 + tactical_density * 0.20 +
    choice_entropy * 0.15 + strategic_factors * 0.05
  max 0 (min 1 complexity)

/-- Embeds `ComplexityCalculator._calculate_decision_difficulty` (lines 169-184). -/
def calculate_decision_difficulty (pcs_score : ℚ) (legal_moves : ℕ) : ℚ :=
  let base_difficulty : ℚ := min 1 (pcs_score / 150)
  let move_factor : ℚ := min 1 ((legal_moves : ℚ) / 40)
  let difficulty : ℚ := base_difficulty * 0.8 + move_factor * 0.2
  max 0 (min 1 difficulty)

/-- The result dictionary of `calculate_complexity` (lines 79-92); the
`components` sub-dictionary is flattened into the three component fields,
and the human-readable `interpretation` string is not modelled. -/
structure ComplexityResult where
  pcs_score : ℚ
  pcs_category : String
  normalized_complexity : ℚ
  decision_difficulty : ℚ
  tactical_density : ℚ
  choice_entropy : ℚ
  strategic_factors : ℚ
  legal_moves_count : ℕ
deriving DecidableEq

/-- Embeds `ComplexityCalculator.calculate_complexity` (lines 44-96), on the
non-exceptional path (the pure computations below cannot raise). -/
def calculate_complexity (log2q : ℚ → ℚ) (board : Board)
    (top_moves_analysis : List (Option EngineScore)) : ComplexityResult :=
  let pcs_score := calculate_pcs_score top_moves_analysis
  let tactical_density := calculate_tactical_density board
  let choice_entropy := calculate_choice_entropy log2q board
  let strategic_factors := calculate_strategic_factors board
  { pcs_score := pcs_score
    pcs_category := get_pcs_category pcs_score
    normalized_complexity :=
      normalize_complexity pcs_score tactical_density choice_entropy strategic_factors
    decision_difficulty :=
      calculate_decision_difficulty pcs_score board.legal_moves.length
    tactical_density := tactical_density
    choice_entropy := choice_entropy
    strategic_factors := strategic_factors
    legal_moves_count := board.legal_moves.length }

/-- Embeds `ComplexityCalculator._get_default_complexity` (lines 357-372): the
value returned when `calculate_complexity` catches an exception. -/
def get_default_complexity : ComplexityResult :=
  { pcs_score := 0
    pcs_category := "trivial"
    normalized_complexity := 0.3
    decision_difficulty := 0.3
    tactical_density := 0
    choice_entropy := 0
    strategic_factors := 0
    legal_moves_count := 0 }

/-- Rank-1 evaluation of a candidate list, per the description of the spec. -/
def spec_e1 (tma : List (Option EngineScore)) : ℚ := entry_score (tma.getD 0 none)

/-- Rank-2 evaluation of a candidate list, per the description of the spec. -/
def spec_e2 (tma : List (Option EngineScore)) : ℚ := entry_score (tma.getD 1 none)

/-- Rank-3 evaluation; a missing third entry repeats the last known value,
per the description of the spec. -/
def spec_e3 (tma : List (Option EngineScore)) : ℚ :=
  if 3 ≤ tma.length then entry_score (tma.getD 2 none) else spec_e2 tma

/-- Ordinal of a complexity category in the order
trivial < balanced < critical < chaotic. -/
def category_ord (category : String) : ℕ :=
  if category = "trivial" then 0
  else if category = "balanced" then 1
  else if category = "critical" then 2
  else 3

/-- A board with no legal move, no pieces and no king squares (the guards
of all three strategic heuristics fail on it). -/
def empty_board : Board :=
  { legal_moves := []
    white_pawns := 0, white_knights := 0, white_bishops := 0
    white_rooks := 0, white_queens := 0
    black_pawns := 0, black_knights := 0, black_bishops := 0
    black_rooks := 0, black_queens := 0
    white_king := none, black_king := none }

/-- The loop of `ComplexityCalculator._find_longest_streak` (lines
420-432), threading the `current_streak` and `max_streak` variables. -/
def streak_go (target_categories : List String) :
    List String → ℕ → ℕ → ℕ
  | [], _, max_streak => max_streak
  | category :: rest, current_streak, max_streak =>
    if target_categories.contains category then
      streak_go target_categories rest (current_streak + 1)
        (max max_streak (current_streak + 1))
    else
      streak_go target_categories rest 0 max_streak

/-- Embeds `ComplexityCalculator._find_longest_streak` (lines 420-432). -/
def find_longest_streak (categories : List String) (target_categories : List String) : ℕ :=
  streak_go target_categories categories 0 0

/-- Helper for reasoning about the streak scan: the value the scan still
produces when the element just before the remaining list ends a run of
length `current`, ignoring the best-so-far accumulator. -/
def streak_free (target_categories : List String) : List String → ℕ → ℕ
  | [], current => current
  | category :: rest, current =>
    if target_categories.contains category then
      streak_free target_categories rest (current + 1)
    else
      max current (streak_free target_categories rest 0)

/-! ## metrics.py and engine_analyzer.py -/

/-- The slice of a per-move analysis dictionary consulted by the metrics
functions below: `player`, the optional `move_time`, the
`engine_analysis` flags `is_legal` (read by MetricsCalculator) and
`is_valid` (read by EngineAnalyzer), the move_rank entry of engine_analysis, and
the optional `complexity` sub-dictionary keys `total_complexity` and
`normalized_complexity`. -/
structure MoveAnalysis where
  player : String
  move_time : Option ℚ
  is_legal : Bool
  is_valid : Bool
  move_rank : ℕ
  complexity_total : Option ℚ
  complexity_normalized : Option ℚ
deriving DecidableEq

/-- Models `numpy.mean` of a list of rationals. -/
def np_mean (l : List ℚ) : ℚ := l.sum / (l.length : ℚ)

/-- Result dictionary of `MetricsCalculator._calculate_engine_matching_metrics`. -/
structure EngineMatching where
  pv1_matches : ℕ
  pv2_matches : ℕ
  pv3_matches : ℕ
  pv1_percentage : ℚ
  pv2_percentage : ℚ
  pv3_percentage : ℚ
  total_analyzed : ℕ
deriving DecidableEq

/-- The counter loop of `_calculate_engine_matching_metrics` (metrics.py
lines 217-239), threading (pv1, pv2, pv3, total). -/
def em_loop : List MoveAnalysis → ℕ × ℕ × ℕ × ℕ → ℕ × ℕ × ℕ × ℕ
  | [], acc => acc
  | analysis :: rest, (pv1, pv2, pv3, total) =>
    if analysis.is_legal then
      if 0 < analysis.move_rank then
        if analysis.move_rank = 1 then em_loop rest (pv1 + 1, pv2 + 1, pv3 + 1, total + 1)
        else if analysis.move_rank = 2 then em_loop rest (pv1, pv2 + 1, pv3 + 1, total + 1)
        else if analysis.move_rank = 3 then em_loop rest (pv1, pv2, pv3 + 1, total + 1)
        else em_loop rest (pv1, pv2, pv3, total + 1)
      else em_loop rest (pv1, pv2, pv3, total)
    else em_loop rest (pv1, pv2, pv3, total)

/-- Embeds `MetricsCalculator._calculate_engine_matching_metrics` (lines 215-260). -/
def calculate_engine_matching_metrics (move_analyses : List MoveAnalysis) : EngineMatching :=
  match em_loop move_analyses (0, 0, 0, 0) with
  | (pv1_matches, pv2_matches, pv3_matches, total_analyzed) =>
    if total_analyzed = 0 then
      { pv1_matches := 0, pv2_matches := 0, pv3_matches := 0
        pv1_percentage := 0, pv2_percentage := 0, pv3_percentage := 0
        total_analyzed := 0 }
    else
      { pv1_matches := pv1_matches, pv2_matches := pv2_matches, pv3_matches := pv3_matches
        pv1_percentage := ((pv1_matches : ℚ) / (total_analyzed : ℚ)) * 100
        pv2_percentage := ((pv2_matches : ℚ) / (total_analyzed : ℚ)) * 100
        pv3_percentage := ((pv3_matches : ℚ) / (total_analyzed : ℚ)) * 100
        total_analyzed := total_analyzed }

/-- Spec-side count of legal records whose played move matched candidate 1. -/
def pv1_count_spec (l : List MoveAnalysis) : ℕ :=
  l.countP (fun a => a.is_legal && (a.move_rank == 1))

/-- Spec-side count of legal records with rank ≤ 2 among ranks > 0,
i.e. rank ∈ {1, 2}. -/
def pv2_count_spec (l : List MoveAnalysis) : ℕ :=
  l.countP (fun a => a.is_legal && (a.move_rank == 1 || a.move_rank == 2))

/-- Spec-side count of legal records with rank ≤ 3 among ranks > 0,
i.e. rank ∈ {1, 2, 3}. -/
def pv3_count_spec (l : List MoveAnalysis) : ℕ :=
  l.countP (fun a => a.is_legal && (a.move_rank == 1 || a.move_rank == 2 || a.move_rank == 3))

/-- Spec-side denominator: legal records whose moveRank is positive. -/
def matched_count_spec (l : List MoveAnalysis) : ℕ :=
  l.countP (fun a => a.is_legal && (a.move_rank != 0))

/-- The engine-matching slice of the result of
`EngineAnalyzer._calculate_player_metrics` (lines 615-627 and 664-673). -/
structure AnalyzerEngineMatching where
  pv1_percentage : ℚ
  pv2_percentage : ℚ
  pv3_percentage : ℚ
  total_analyzed : ℕ
  pv1_count : ℕ
  pv2_count : ℕ
  pv3_count : ℕ
deriving DecidableEq

/-- The engine-matching computation of `EngineAnalyzer._calculate_player_metrics`
(lines 615-627): counts over all valid moves, with `move_rank <= 2` /
`move_rank <= 3` conditions that also hold for rank-0 (unmatched) moves,
and the count of valid moves as denominator. -/
def analyzer_engine_matching (moves : List MoveAnalysis) : AnalyzerEngineMatching :=
  let valid_moves := moves.filter (fun m => m.is_valid)
  let pv1_count := valid_moves.countP (fun m => m.move_rank == 1)
  let pv2_count := valid_moves.countP (fun m => decide (m.move_rank ≤ 2))
  let pv3_count := valid_moves.countP (fun m => decide (m.move_rank ≤ 3))
  let total_analyzed := valid_moves.length
  { pv1_percentage := if 0 < total_analyzed then ((pv1_count : ℚ) / (total_analyzed : ℚ)) * 100 else 0
    pv2_percentage := if 0 < total_analyzed then ((pv2_count : ℚ) / (total_analyzed : ℚ)) * 100 else 0
    pv3_percentage := if 0 < total_analyzed then ((pv3_count : ℚ) / (total_analyzed : ℚ)) * 100 else 0
    total_analyzed := total_analyzed
    pv1_count := pv1_count
    pv2_count := pv2_count
    pv3_count := pv3_count }

/-- The example of the spec: 10 valid records with moveRanks
[1,1,2,3,0,1,2,0,0,3]. -/
def c3_example_records : List MoveAnalysis :=
  [1, 1, 2, 3, 0, 1, 2, 0, 0, 3].map (fun r =>
    { player := "white", move_time := none, is_legal := true, is_valid := true
      move_rank := r, complexity_total := none, complexity_normalized := none })

/-- The four metric values read (with `.get(…, 0)` defaults) by
`MetricsCalculator._calculate_risk_assessment`. -/
structure RiskInput where
  pv1_percentage : ℚ
  move_time_cv : ℚ
  accuracy_score : ℚ
  average_complexity : ℚ
deriving DecidableEq

/-- Result of `_calculate_risk_assessment` (the formatted `summary` string
is not modelled). -/
structure RiskAssessment where
  risk_score : ℚ
  risk_level : String
  risk_factors : List (String × ℚ)
deriving DecidableEq

/-- Embeds `MetricsCalculator._calculate_risk_assessment` (lines 470-525): four
rule ladders each appending at most one (name, weight) factor, overall
score = numpy mean of the fired weights or 0.1, risk level by fixed
thresholds. -/
def calculate_risk_assessment (m : RiskInput) : RiskAssessment :=
  let risk_factors : List (String × ℚ) :=
    (if m.pv1_percentage > 80 then [(("very_high_pv1" : String), (0.9 : ℚ))]
     else if m.pv1_percentage > 60 then [("high_pv1", 0.7)]
     else if m.pv1_percentage > 40 then [("moderate_pv1", 0.4)]
     else []) ++
    (if m.move_time_cv < 0.3 then [("very_consistent_timing", 0.8)]
     else if m.move_time_cv < 0.5 then [("consistent_timing", 0.5)]
     else []) ++
    (if m.accuracy_score > 95 then [("very_high_accuracy", 0.9)]
     else if m.accuracy_score > 85 then [("high_accuracy", 0.6)]
     else []) ++
    (if m.average_complexity > 0.7 then [("high_complexity_handling", 0.7)]
     else [])
  let risk_score : ℚ :=
    if risk_factors = [] then 0.1
    else np_mean (risk_factors.map Prod.snd)
  let risk_level : String :=
    if risk_score ≥ 0.8 then "very_high"
    else if risk_score ≥ 0.6 then "high"
    else if risk_score ≥ 0.4 then "moderate"
    else if risk_score ≥ 0.2 then "low"
    else "very_low"
  { risk_score := risk_score, risk_level := risk_level, risk_factors := risk_factors }

/-- The riskScore → riskLevel step function exactly as the spec states it:
≥ 0.8 very_high; ≥ 0.6 high; ≥ 0.4 moderate; ≥ 0.2 low; else very_low. -/
def risk_level_spec (risk_score : ℚ) : String :=
  if 0.8 ≤ risk_score then "very_high"
  else if 0.6 ≤ risk_score then "high"
  else if 0.4 ≤ risk_score then "moderate"
  else if 0.2 ≤ risk_score then "low"
  else "very_low"

/-- Population variance (the square of `numpy.std`). -/
def np_variance (l : List ℚ) : ℚ :=
  ((l.map (fun x => (x - np_mean l) ^ 2)).sum) / (l.length : ℚ)

/-- Models `numpy.std`: the population standard deviation, a real square root. -/
noncomputable def np_std (l : List ℚ) : ℝ :=
  Real.sqrt ((np_variance l : ℚ) : ℝ)

/-- The move times collected by `_calculate_temporal_metrics` (metrics.py
lines 268-276): times that are present (`is not None`) and positive. -/
def temporal_times (move_analyses : List MoveAnalysis) : List ℚ :=
  (move_analyses.filterMap (fun analysis => analysis.move_time)).filter
    (fun t => decide (0 < t))

/-- The white share of the collected move times (metrics.py lines 273-274). -/
def white_move_times (move_analyses : List MoveAnalysis) : List ℚ :=
  ((move_analyses.filter (fun analysis => analysis.player == "white")).filterMap
    (fun analysis => analysis.move_time)).filter (fun t => decide (0 < t))

/-- The black share of the collected move times (metrics.py lines 275-276). -/
def black_move_times (move_analyses : List MoveAnalysis) : List ℚ :=
  ((move_analyses.filter (fun analysis => analysis.player != "white")).filterMap
    (fun analysis => analysis.move_time)).filter (fun t => decide (0 < t))

/-- Result dictionary of `MetricsCalculator._calculate_temporal_metrics`
(the empty-input dictionary carries no `total_moves_with_time` key; that
field is modelled as 0 there). -/
structure TemporalMetrics where
  move_time_std : ℝ
  move_time_mean : ℚ
  move_time_cv : ℝ
  white_time_std : ℝ
  black_time_std : ℝ
  time_consistency_score : ℝ
  total_moves_with_time : ℕ

/-- Embeds `MetricsCalculator._calculate_temporal_metrics` (lines 262-307). Note
line 297: the returned `time_consistency_score` is the coefficient of
variation itself. -/
noncomputable def calculate_temporal_metrics (move_analyses : List MoveAnalysis) :
    TemporalMetrics :=
  let move_times := temporal_times move_analyses
  let white_times := white_move_times move_analyses
  let black_times := black_move_times move_analyses
  if move_times = [] then
    { move_time_std := 0, move_time_mean := 0, move_time_cv := 0
      white_time_std := 0, black_time_std := 0, time_consistency_score := 0
      total_moves_with_time := 0 }
  else
    let move_time_mean := np_mean move_times
    let move_time_std := np_std move_times
    let move_time_cv : ℝ :=
      if 0 < move_time_mean then move_time_std / ((move_time_mean : ℚ) : ℝ) else 0
    { move_time_std := move_time_std
      move_time_mean := move_time_mean
      move_time_cv := move_time_cv
      white_time_std := if white_times ≠ [] then np_std white_times else 0
      black_time_std := if black_times ≠ [] then np_std black_times else 0
      time_consistency_score := move_time_cv
      total_moves_with_time := move_times.length }

/-- The timing-metrics dictionary built by
`EngineAnalyzer._calculate_player_metrics` (lines 646-654). -/
structure TimingMetrics where
  move_time_mean : ℚ
  move_time_std : ℝ
  move_time_cv : ℝ
  total_moves_with_time : ℕ
  time_consistency_score : ℝ

/-- The move times collected by `_calculate_player_metrics` (engine_analyzer.py
lines 640-644): the move_time value (default 0) kept when positive. -/
def player_move_times (moves : List MoveAnalysis) : List ℚ :=
  (moves.map (fun move => (move.move_time).getD 0)).filter (fun t => decide (0 < t))

/-- The timing-metrics slice (lines 639-654) of
`EngineAnalyzer._calculate_player_metrics`; the empty `timing_metrics = {}`
dictionary of the no-times case is modelled as `none`.  Note line 653: the
consistency score here is max(0, 1 − std/mean). -/
noncomputable def analyzer_timing_metrics (moves : List MoveAnalysis) :
    Option TimingMetrics :=
  let move_times := player_move_times moves
  if move_times = [] then none
  else some
    { move_time_mean := np_mean move_times
      move_time_std := np_std move_times
      move_time_cv :=
        if 0 < np_mean move_times then np_std move_times / ((np_mean move_times : ℚ) : ℝ)
        else 0
      total_moves_with_time := move_times.length
      time_consistency_score :=
        if 0 < np_mean move_times then
          max 0 (1 - np_std move_times / ((np_mean move_times : ℚ) : ℝ))
        else 0 }

/-- Coefficient of variation as the spec words it: std/mean, taken as 0
when the mean is 0. -/
noncomputable def coefficient_of_variation (l : List ℚ) : ℝ :=
  if np_mean l = 0 then 0 else np_std l / ((np_mean l : ℚ) : ℝ)

/-- Two records with equal positive move times (coefficient of variation 0). -/
def c5_records : List MoveAnalysis :=
  [{ player := "white", move_time := some 1, is_legal := true, is_valid := true
     move_rank := 1, complexity_total := none, complexity_normalized := none },
   { player := "black", move_time := some 1, is_legal := true, is_valid := true
     move_rank := 1, complexity_total := none, complexity_normalized := none }]

/-- Two records with move times 1 and 3. -/
def c5_witness_records : List MoveAnalysis :=
  [{ player := "white", move_time := some 1, is_legal := true, is_valid := true
     move_rank := 1, complexity_total := none, complexity_normalized := none },
   { player := "black", move_time := some 3, is_legal := true, is_valid := true
     move_rank := 1, complexity_total := none, complexity_normalized := none }]

/-- The critical-group times of `_calculate_behavioral_metrics` (metrics.py
lines 357-368): positive move times of records whose
the total_complexity key of complexity (default 0) exceeds 0.6. -/
def critical_position_times (move_analyses : List MoveAnalysis) : List ℚ :=
  move_analyses.filterMap (fun analysis =>
    match analysis.move_time with
    | some t => if 0 < t ∧ (analysis.complexity_total).getD 0 > 0.6 then some t else none
    | none => none)

/-- The normal-group times of `_calculate_behavioral_metrics`. -/
def normal_position_times (move_analyses : List MoveAnalysis) : List ℚ :=
  move_analyses.filterMap (fun analysis =>
    match analysis.move_time with
    | some t => if 0 < t ∧ ¬ (analysis.complexity_total).getD 0 > 0.6 then some t else none
    | none => none)

/-- Result slice of `MetricsCalculator._calculate_behavioral_metrics`
(lines 354-389); the position-consistency and phase-performance
sub-metrics are not modelled. -/
structure BehavioralMetrics where
  critical_time_ratio : ℚ
  critical_positions_count : ℕ
  normal_positions_count : ℕ
deriving DecidableEq

/-- The critical-time-ratio computation of
`MetricsCalculator._calculate_behavioral_metrics` (lines 356-389). -/
def calculate_behavioral_metrics (move_analyses : List MoveAnalysis) : BehavioralMetrics :=
  let crit := critical_position_times move_analyses
  let normal := normal_position_times move_analyses
  let critical_time_ratio : ℚ :=
    if crit ≠ [] ∧ normal ≠ [] then
      (if 0 < np_mean normal then np_mean crit / np_mean normal else 1)
    else 1
  { critical_time_ratio := critical_time_ratio
    critical_positions_count := crit.length
    normal_positions_count := normal.length }

/-- The critical group as the spec words it for C8: positive move times of
positions whose normalizedComplexity exceeds 0.6. -/
def critical_times_spec (move_analyses : List MoveAnalysis) : List ℚ :=
  move_analyses.filterMap (fun analysis =>
    match analysis.move_time with
    | some t => if 0 < t ∧ (analysis.complexity_normalized).getD 0 > 0.6 then some t else none
    | none => none)

/-- The times of the remaining positions as the spec words it for C8. -/
def normal_times_spec (move_analyses : List MoveAnalysis) : List ℚ :=
  move_analyses.filterMap (fun analysis =>
    match analysis.move_time with
    | some t => if 0 < t ∧ ¬ (analysis.complexity_normalized).getD 0 > 0.6 then some t else none
    | none => none)

/-- The critical-time-ratio as the spec words it for C8: mean move time of
positions with normalizedComplexity > 0.6 over the mean move time of the
remaining positions, defaulting to 1.0 if either group is empty. -/
def critical_time_ratio_spec (move_analyses : List MoveAnalysis) : ℚ :=
  if critical_times_spec move_analyses ≠ [] ∧ normal_times_spec move_analyses ≠ [] then
    np_mean (critical_times_spec move_analyses) / np_mean (normal_times_spec move_analyses)
  else 1

/-- Failing input for C8: a record with normalized complexity 0.9 and move
time 10, and a record with normalized complexity 0.1 and move time 2;
neither carries a `total_complexity` key (nothing in the pipeline ever
writes one). -/
def c8_records : List MoveAnalysis :=
  [{ player := "white", move_time := some 10, is_legal := true, is_valid := true
     move_rank := 1, complexity_total := none, complexity_normalized := some 0.9 },
   { player := "black", move_time := some 2, is_legal := true, is_valid := true
     move_rank := 1, complexity_total := none, complexity_normalized := some 0.1 }]

/-! ## opening_explorer.py -/

/-- An Opening Explorer API response: the three game counters consulted by
the scan (other JSON fields are never read by it). -/
structure ExplorerResponse where
  white : ℕ
  draws : ℕ
  black : ℕ
deriving DecidableEq

/-- Embeds the total-games sum of the white, draws and black counters (each with default 0). -/
def total_games (response : ExplorerResponse) : ℕ :=
  response.white + response.draws + response.black

/-- The loop of `get_opening_moves_count` (opening_explorer.py lines
82-106): `i` counts up from 1, `fuel` is the number of remaining loop
iterations, `opening_moves` the accumulator set to the last passing `i`.
The oracle parameter models `_query_opening_api` applied to a UCI move
prefix (`None` on network failure or non-200 response). -/
def opening_go (oracle : List String → Option ExplorerResponse) (moves : List String) :
    ℕ → ℕ → ℕ → ℕ
  | 0, _, opening_moves => opening_moves
  | fuel + 1, i, opening_moves =>
    match oracle (moves.take i) with
    | some response =>
      if 10 ≤ total_games response then opening_go oracle moves fuel (i + 1) i
      else opening_moves
    | none => opening_moves

/-- Embeds `OpeningExplorer.get_opening_moves_count` (lines 58-112): scans the
prefixes i ∈ range(1, min(len(moves)+1, max_moves)) where max_moves is 20
in lite mode and 40 otherwise (`Config.LITE_MODE` is passed as a
parameter), and stops at the first prefix with fewer than 10 total games
or with a failed query. -/
def get_opening_moves_count (oracle : List String → Option ExplorerResponse)
    (lite_mode : Bool) (moves : List String) : ℕ :=
  let max_moves := if lite_mode then 20 else 40
  opening_go oracle moves (min (moves.length + 1) max_moves - 1) 1 0

/-- Result slice of `analyze_opening_deviation` (lines 270-317); the
opening-statistics and alternative-moves enrichments (further oracle
queries that do not affect these fields) are not modelled. -/
structure OpeningDeviation where
  opening_moves_count : ℕ
  total_moves : ℕ
  deviation_move : Option ℕ
  opening_percentage : ℚ
  is_mostly_opening : Bool
deriving DecidableEq

/-- Embeds `OpeningExplorer.analyze_opening_deviation` (lines 270-317). -/
def analyze_opening_deviation (oracle : List String → Option ExplorerResponse)
    (lite_mode : Bool) (moves : List String) : OpeningDeviation :=
  let last_opening_move := get_opening_moves_count oracle lite_mode moves
  { opening_moves_count := last_opening_move
    total_moves := moves.length
    deviation_move :=
      if last_opening_move < moves.length then some (last_opening_move + 1) else none
    opening_percentage :=
      if moves ≠ [] then ((last_opening_move : ℚ) / (moves.length : ℚ)) * 100 else 0
    is_mostly_opening := decide (min 15 (moves.length / 2) ≤ last_opening_move) }

/-- The first `i` moves are in theory: the oracle answers the prefix query
and reports at least 10 total games. -/
def passes_theory (oracle : List String → Option ExplorerResponse)
    (moves : List String) (i : ℕ) : Bool :=
  match oracle (moves.take i) with
  | some response => decide (10 ≤ total_games response)
  | none => false

/-- An oracle reporting 50 games for every queried position. -/
def c4_all_pass_oracle : List String → Option ExplorerResponse :=
  fun _ => some { white := 50, draws := 0, black := 0 }

/-- A 20-move game. -/
def c4_long_game : List String := List.replicate 20 ("e2e4")

/-- The example oracle of the spec: total games 50, 40, 5 for the prefixes of
lengths 1, 2, 3. -/
def c4_example_oracle : List String → Option ExplorerResponse := fun moves =>
  if moves.length = 1 then some { white := 50, draws := 0, black := 0 }
  else if moves.length = 2 then some { white := 40, draws := 0, black := 0 }
  else some { white := 5, draws := 0, black := 0 }

/-- A 3-move game for the opening-scan example of the spec. -/
def c4_example_moves : List String := [("e2e4"), ("e7e5"), ("g1f3")]

/-! ## Theorems -/

/-- Relates `List.contains` to list membership for strings. -/
theorem string_contains_iff_mem {t : List String} {c : String} :
    t.contains c = true ↔ c ∈ t := by
  simp [List.contains]

/-- The pending run length bounds the scan result from below. -/
theorem streak_free_self_le (t : List String) :
    ∀ (l : List String) (cur : ℕ), cur ≤ streak_free t l cur := by
  intro l
  induction l with
  | nil => intro cur; exact le_refl cur
  | cons c rest ih =>
    intro cur
    by_cases hc : c ∈ t
    · calc cur ≤ cur + 1 := Nat.le_succ cur
        _ ≤ streak_free t rest (cur + 1) := ih (cur + 1)
        _ = streak_free t (c :: rest) cur := by simp [streak_free, hc]
    · calc cur ≤ max cur (streak_free t rest 0) := le_max_left _ _
        _ = streak_free t (c :: rest) cur := by simp [streak_free, hc]

/-- Monotonicity of `streak_free` in the pending run length. -/
theorem streak_free_mono (t : List String) :
    ∀ (l : List String) {cur cur' : ℕ}, cur ≤ cur' →
      streak_free t l cur ≤ streak_free t l cur' := by
  intro l
  induction l with
  | nil => intro cur cur' h; simpa [streak_free] using h
  | cons c rest ih =>
    intro cur cur' h
    by_cases hc : c ∈ t
    · simpa [streak_free, hc] using ih (Nat.succ_le_succ h)
    · simpa [streak_free, hc] using max_le_max h (le_refl (streak_free t rest 0))

/-- The scan with accumulator equals the max of the accumulator and the
accumulator-free scan, provided the invariant `cur ≤ best` holds. -/
theorem streak_go_eq_max (t : List String) :
    ∀ (l : List String) (cur best : ℕ), cur ≤ best →
      streak_go t l cur best = max best (streak_free t l cur) := by
  intro l
  induction l with
  | nil =>
    intro cur best h
    simpa [streak_go, streak_free] using (max_eq_left h).symm
  | cons c rest ih =>
    intro cur best h
    by_cases hc : c ∈ t
    · simp only [streak_go, streak_free]
      rw [if_pos (string_contains_iff_mem.mpr hc), if_pos (string_contains_iff_mem.mpr hc),
        ih (cur + 1) (max best (cur + 1)) (le_max_right _ _), max_assoc,
        max_eq_right (streak_free_self_le t rest (cur + 1))]
    · simp only [streak_go, streak_free]
      rw [if_neg (fun hcon => hc (string_contains_iff_mem.mp hcon)),
        if_neg (fun hcon => hc (string_contains_iff_mem.mp hcon)),
        ih 0 best (Nat.zero_le _), ← max_assoc, max_eq_left h]

/-- A run of target categories at the head of the list bounds the scan
from below. -/
theorem streak_free_run_le (t : List String) :
    ∀ (run post : List String) (cur : ℕ), (∀ c ∈ run, c ∈ t) →
      cur + run.length ≤ streak_free t (run ++ post) cur := by
  intro run
  induction run with
  | nil => intro post cur _; simpa using streak_free_self_le t post cur
  | cons a run ih =>
    intro post cur hall
    have ha : a ∈ t := hall a (List.mem_cons_self a run)
    have hrest := ih post (cur + 1) (fun c hc => hall c (List.mem_cons_of_mem a hc))
    calc cur + (a :: run).length = (cur + 1) + run.length := by simp [List.length_cons]; omega
      _ ≤ streak_free t (run ++ post) (cur + 1) := hrest
      _ = streak_free t ((a :: run) ++ post) cur := by simp [streak_free, ha]

/-- Dropping a leading segment cannot increase the accumulator-free scan. -/
theorem streak_free_drop_le (t l : List String) :
    ∀ (pre : List String) (cur : ℕ),
      streak_free t l 0 ≤ streak_free t (pre ++ l) cur := by
  intro pre
  induction pre with
  | nil => intro cur; exact streak_free_mono t l (Nat.zero_le cur)
  | cons a pre ih =>
    intro cur
    by_cases ha : a ∈ t
    · simpa [streak_free, ha] using ih (cur + 1)
    · calc streak_free t l 0 ≤ streak_free t (pre ++ l) 0 := ih 0
        _ ≤ max cur (streak_free t (pre ++ l) 0) := le_max_right _ _
        _ = streak_free t ((a :: pre) ++ l) cur := by simp [streak_free, ha]

/-- The accumulator-free scan value is achieved by some run: either a run
extending the pending one at the head, or an interior run. -/
theorem streak_free_achieved (t : List String) :
    ∀ (l : List String) (cur : ℕ),
      (∃ run post, l = run ++ post ∧ (∀ c ∈ run, c ∈ t) ∧
        streak_free t l cur = cur + run.length) ∨
      (∃ pre run post, l = pre ++ run ++ post ∧ (∀ c ∈ run, c ∈ t) ∧
        streak_free t l cur = run.length) := by
  intro l
  induction l with
  | nil =>
    intro cur
    exact Or.inl ⟨[], [], rfl, by simp, by simp [streak_free]⟩
  | cons a rest ih =>
    intro cur
    by_cases ha : a ∈ t
    · have hstep : streak_free t (a :: rest) cur = streak_free t rest (cur + 1) := by
        simp [streak_free, ha]
      rcases ih (cur + 1) with ⟨run, post, heq, hall, hsf⟩ | ⟨pre, run, post, heq, hall, hsf⟩
      · refine Or.inl ⟨a :: run, post, by rw [heq, List.cons_append], ?_, ?_⟩
        · intro c hc
          rcases List.mem_cons.mp hc with rfl | hc
          · exact ha
          · exact hall c hc
        · rw [hstep, hsf, List.length_cons]
          omega
      · exact Or.inr ⟨a :: pre, run, post, by rw [heq]; simp, hall, by rw [hstep, hsf]⟩
    · have hstep : streak_free t (a :: rest) cur = max cur (streak_free t rest 0) := by
        simp [streak_free, ha]
      rcases Nat.le_total (streak_free t rest 0) cur with hle | hle
      · refine Or.inl ⟨[], a :: rest, rfl, by simp, ?_⟩
        rw [hstep, max_eq_left hle]
        simp
      · have hmax : streak_free t (a :: rest) cur = streak_free t rest 0 := by
          rw [hstep]; exact max_eq_right hle
        rcases ih 0 with ⟨run, post, heq, hall, hsf⟩ | ⟨pre, run, post, heq, hall, hsf⟩
        · refine Or.inr ⟨[a], run, post, by rw [heq]; simp, hall, ?_⟩
          rw [hmax, hsf]
          omega
        · exact Or.inr ⟨a :: pre, run, post, by rw [heq]; simp, hall, by rw [hmax, hsf]⟩

/-- Claim C9 counterexample: for
[trivial, critical, chaotic, balanced, critical, critical] with targets
{critical, chaotic} the longest streak is 2 (the runs are
critical-chaotic and critical-critical, both of length 2), not 3 as the
claim states. -/
theorem c9_example_counterexample :
    find_longest_streak
      ["trivial", "critical", "chaotic", "balanced", "critical", "critical"]
      ["critical", "chaotic"] = 2 ∧
    find_longest_streak
      ["trivial", "critical", "chaotic", "balanced", "critical", "critical"]
      ["critical", "chaotic"] ≠ 3 := by
  decide

/-- Claim C9 as amended: the longest critical-or-chaotic streak computed by
the linear scan is exactly the length of the longest run of consecutive
positions whose category lies in the target set; in particular it is 2 (not
3) for [trivial, critical, chaotic, balanced, critical, critical] with
targets {critical, chaotic}. -/
theorem c9_longest_streak :
    (∀ (categories target_categories : List String),
      IsGreatest { n : ℕ | ∃ pre run post, categories = pre ++ run ++ post ∧
          (∀ c ∈ run, c ∈ target_categories) ∧ n = run.length }
        (find_longest_streak categories target_categories)) ∧
    find_longest_streak
      ["trivial", "critical", "chaotic", "balanced", "critical", "critical"]
      ["critical", "chaotic"] = 2 := by
  constructor
  · intro cats t
    have hfind : find_longest_streak cats t = streak_free t cats 0 := by
      unfold find_longest_streak
      rw [streak_go_eq_max t cats 0 0 (le_refl 0),
        max_eq_right (Nat.zero_le (streak_free t cats 0))]
    constructor
    · rcases streak_free_achieved t cats 0 with ⟨run, post, heq, hall, hsf⟩ |
        ⟨pre, run, post, heq, hall, hsf⟩
      · exact ⟨[], run, post, by simpa using heq, hall, by rw [hfind, hsf]; omega⟩
      · exact ⟨pre, run, post, heq, hall, by rw [hfind, hsf]⟩
    · rintro n ⟨pre, run, post, heq, hall, rfl⟩
      calc run.length = 0 + run.length := by omega
        _ ≤ streak_free t (run ++ post) 0 := streak_free_run_le t run post 0 hall
        _ ≤ streak_free t (pre ++ (run ++ post)) 0 := streak_free_drop_le t (run ++ post) pre 0
        _ = streak_free t cats 0 := by rw [heq, List.append_assoc]
        _ = find_longest_streak cats t := hfind.symm
  · decide

/-- The engine-matching counter loop adds the spec-side counts to its
accumulator. -/
theorem em_loop_eq (l : List MoveAnalysis) :
    ∀ acc : ℕ × ℕ × ℕ × ℕ, em_loop l acc =
      (acc.1 + pv1_count_spec l, acc.2.1 + pv2_count_spec l,
       acc.2.2.1 + pv3_count_spec l, acc.2.2.2 + matched_count_spec l) := by
  induction l with
  | nil =>
    rintro ⟨pv1, pv2, pv3, total⟩
    simp [em_loop, pv1_count_spec, pv2_count_spec, pv3_count_spec, matched_count_spec]
  | cons a rest ih =>
    rintro ⟨pv1, pv2, pv3, total⟩
    simp only [em_loop]
    split_ifs with hleg hpos h1 h2 h3 <;>
      simp_all [pv1_count_spec, pv2_count_spec, pv3_count_spec, matched_count_spec,
        List.countP_cons, Nat.pos_iff_ne_zero] <;>
      omega

/-- Claim C3 as amended: engine-matching percentages in the metrics
calculator are computed over the count of legal records with moveRank > 0
(rank-0 records are excluded from the denominator), pv2 counting rank ≤ 2
and pv3 counting rank ≤ 3 among those. -/
theorem c3_engine_matching (move_analyses : List MoveAnalysis)
    (h : 0 < matched_count_spec move_analyses) :
    (calculate_engine_matching_metrics move_analyses).total_analyzed =
      matched_count_spec move_analyses ∧
    (calculate_engine_matching_metrics move_analyses).pv1_matches =
      pv1_count_spec move_analyses ∧
    (calculate_engine_matching_metrics move_analyses).pv2_matches =
      pv2_count_spec move_analyses ∧
    (calculate_engine_matching_metrics move_analyses).pv3_matches =
      pv3_count_spec move_analyses ∧
    (calculate_engine_matching_metrics move_analyses).pv1_percentage =
      ((pv1_count_spec move_analyses : ℚ) / (matched_count_spec move_analyses : ℚ)) * 100 ∧
    (calculate_engine_matching_metrics move_analyses).pv2_percentage =
      ((pv2_count_spec move_analyses : ℚ) / (matched_count_spec move_analyses : ℚ)) * 100 ∧
    (calculate_engine_matching_metrics move_analyses).pv3_percentage =
      ((pv3_count_spec move_analyses : ℚ) / (matched_count_spec move_analyses : ℚ)) * 100 := by
  have hloop := em_loop_eq move_analyses (0, 0, 0, 0)
  simp only [calculate_engine_matching_metrics, hloop, Nat.zero_add]
  rw [if_neg (Nat.pos_iff_ne_zero.mp h)]
  exact ⟨rfl, rfl, rfl, rfl, rfl, rfl, rfl⟩

/-- Witness for the amended C3 theorem at the 10-record example of the spec. -/
theorem c3_engine_matching_witness :
    0 < matched_count_spec c3_example_records ∧
    ((calculate_engine_matching_metrics c3_example_records).total_analyzed =
      matched_count_spec c3_example_records ∧
     (calculate_engine_matching_metrics c3_example_records).pv1_matches =
      pv1_count_spec c3_example_records ∧
     (calculate_engine_matching_metrics c3_example_records).pv2_matches =
      pv2_count_spec c3_example_records ∧
     (calculate_engine_matching_metrics c3_example_records).pv3_matches =
      pv3_count_spec c3_example_records ∧
     (calculate_engine_matching_metrics c3_example_records).pv1_percentage =
      ((pv1_count_spec c3_example_records : ℚ) / (matched_count_spec c3_example_records : ℚ)) * 100 ∧
     (calculate_engine_matching_metrics c3_example_records).pv2_percentage =
      ((pv2_count_spec c3_example_records : ℚ) / (matched_count_spec c3_example_records : ℚ)) * 100 ∧
     (calculate_engine_matching_metrics c3_example_records).pv3_percentage =
      ((pv3_count_spec c3_example_records : ℚ) / (matched_count_spec c3_example_records : ℚ)) * 100) :=
  ⟨by decide, c3_engine_matching c3_example_records (by decide)⟩

/-- Claim C3 counterexample: on the example list of the spec of 10 valid records
with moveRanks [1,1,2,3,0,1,2,0,0,3] there are 7 (not 8) records with
moveRank > 0, so the metrics calculator returns pv1 = 300/7 ≈ 42.86 %,
pv2 = 500/7 ≈ 71.43 % and pv3 = 100 %, not 37.5 / 62.5 / 87.5; the engine
analyzer per-player variant returns yet other values (30 / 80 / 100 over
all 10 valid records, counting rank-0 records as pv2/pv3 matches). -/
theorem c3_example_counterexample :
    (calculate_engine_matching_metrics c3_example_records).total_analyzed = 7 ∧
    (calculate_engine_matching_metrics c3_example_records).pv1_percentage = 300 / 7 ∧
    (calculate_engine_matching_metrics c3_example_records).pv2_percentage = 500 / 7 ∧
    (calculate_engine_matching_metrics c3_example_records).pv3_percentage = 100 ∧
    ¬ (calculate_engine_matching_metrics c3_example_records).pv1_percentage = 37.5 ∧
    ¬ (calculate_engine_matching_metrics c3_example_records).pv2_percentage = 62.5 ∧
    ¬ (calculate_engine_matching_metrics c3_example_records).pv3_percentage = 87.5 ∧
    (analyzer_engine_matching c3_example_records).pv1_percentage = 30 ∧
    (analyzer_engine_matching c3_example_records).pv2_percentage = 80 ∧
    (analyzer_engine_matching c3_example_records).pv3_percentage = 100 := by
  have hloop : em_loop c3_example_records (0, 0, 0, 0) = (3, 5, 7, 7) := by decide
  have hvalid : c3_example_records.filter (fun m => m.is_valid) = c3_example_records := by
    decide
  have hc1 : c3_example_records.countP (fun m => m.move_rank == 1) = 3 := by decide
  have hc2 : c3_example_records.countP (fun m => decide (m.move_rank ≤ 2)) = 8 := by decide
  have hc3 : c3_example_records.countP (fun m => decide (m.move_rank ≤ 3)) = 10 := by decide
  have hlen : c3_example_records.length = 10 := by decide
  simp only [calculate_engine_matching_metrics, analyzer_engine_matching, hloop, hvalid,
    hc1, hc2, hc3, hlen]
  norm_num

/-- The risk score field restated over the returned factor list. -/
theorem risk_score_characterization (m : RiskInput) :
    (calculate_risk_assessment m).risk_score =
      (if (calculate_risk_assessment m).risk_factors = [] then 0.1
       else (((calculate_risk_assessment m).risk_factors.map Prod.snd).sum) /
         (((calculate_risk_assessment m).risk_factors.length : ℚ))) := by
  simp only [calculate_risk_assessment, np_mean, List.length_map]

/-- The risk level field is the step function of the spec of the risk score. -/
theorem risk_level_characterization (m : RiskInput) :
    (calculate_risk_assessment m).risk_level =
      risk_level_spec ((calculate_risk_assessment m).risk_score) := by
  simp only [calculate_risk_assessment, risk_level_spec, ge_iff_le]

/-- Every fired factor weight is one of 0.9, 0.7, 0.4, 0.8, 0.5, 0.6,
hence at least 0.4. -/
theorem risk_factor_weights_ge (m : RiskInput) :
    ∀ w ∈ ((calculate_risk_assessment m).risk_factors).map Prod.snd, (0.4 : ℚ) ≤ w := by
  intro w hw
  simp only [calculate_risk_assessment, List.map_append, List.mem_append] at hw
  rcases hw with ((h | h) | h) | h <;>
    (split_ifs at h <;> simp_all <;> norm_num)

/-- Claim C2: the risk score is the arithmetic mean of the fired factor
weights, or 0.1 when no factor fired, and the risk level is the step
function of the risk score with thresholds 0.8 / 0.6 / 0.4 / 0.2. -/
theorem c2_risk_fusion (m : RiskInput) :
    (calculate_risk_assessment m).risk_score =
      (if (calculate_risk_assessment m).risk_factors = [] then 0.1
       else (((calculate_risk_assessment m).risk_factors.map Prod.snd).sum) /
         (((calculate_risk_assessment m).risk_factors.length : ℚ))) ∧
    (calculate_risk_assessment m).risk_level =
      risk_level_spec ((calculate_risk_assessment m).risk_score) :=
  ⟨risk_score_characterization m, risk_level_characterization m⟩

/-- Claim C10: the risk score is either exactly 0.1 (no factor fired) or at
least 0.4 (every factor weight is at least 0.4, so their mean is too);
consequently the risk level is never the string low — the [0.2, 0.4) band
of the step function is unreachable. -/
theorem c10_low_band_unreachable (m : RiskInput) :
    ((calculate_risk_assessment m).risk_score = 0.1 ∨
      (0.4 : ℚ) ≤ (calculate_risk_assessment m).risk_score) ∧
    (calculate_risk_assessment m).risk_level ≠ "low" := by
  have hscore := risk_score_characterization m
  have hlevel := risk_level_characterization m
  have hcases : (calculate_risk_assessment m).risk_score = 0.1 ∨
      (0.4 : ℚ) ≤ (calculate_risk_assessment m).risk_score := by
    by_cases hemp : (calculate_risk_assessment m).risk_factors = []
    · left
      rw [hscore, if_pos hemp]
    · right
      rw [hscore, if_neg hemp]
      have hlen : 0 < ((calculate_risk_assessment m).risk_factors.map Prod.snd).length := by
        simpa [List.length_map] using List.length_pos.mpr hemp
      have hsum := List.card_nsmul_le_sum
        ((calculate_risk_assessment m).risk_factors.map Prod.snd) (0.4 : ℚ)
        (risk_factor_weights_ge m)
      rw [le_div_iff₀]
      · calc (0.4 : ℚ) * ((calculate_risk_assessment m).risk_factors.length : ℚ)
            = ((calculate_risk_assessment m).risk_factors.map Prod.snd).length • (0.4 : ℚ) := by
              simp [List.length_map, nsmul_eq_mul, mul_comm]
          _ ≤ ((calculate_risk_assessment m).risk_factors.map Prod.snd).sum := hsum
      · exact_mod_cast List.length_pos.mpr hemp
  refine ⟨hcases, ?_⟩
  rw [hlevel]
  rcases hcases with hlow | hge
  · rw [hlow]
    norm_num [risk_level_spec]
    decide
  · unfold risk_level_spec
    split_ifs <;> simp

/-- The two move-time collectors agree: a missing time defaults to 0 and is
then dropped by the positivity filter. -/
theorem player_move_times_eq_temporal (l : List MoveAnalysis) :
    player_move_times l = temporal_times l := by
  induction l with
  | nil => rfl
  | cons a rest ih =>
    cases hmt : a.move_time with
    | none =>
        simpa [player_move_times, temporal_times, hmt, List.filterMap_cons,
          List.filter_cons] using ih
    | some t =>
        by_cases ht : 0 < t <;>
          simpa [player_move_times, temporal_times, hmt, ht, List.filterMap_cons,
            List.filter_cons] using ih

/-- All collected temporal move times are positive. -/
theorem temporal_times_pos (l : List MoveAnalysis) :
    ∀ t ∈ temporal_times l, 0 < t := by
  intro t ht
  have := List.of_mem_filter ht
  simpa using this

/-- The mean of a nonempty list of positive rationals is positive. -/
theorem np_mean_pos (l : List ℚ) (h : l ≠ []) (hpos : ∀ x ∈ l, 0 < x) :
    0 < np_mean l := by
  unfold np_mean
  apply div_pos (List.sum_pos l hpos h)
  exact_mod_cast List.length_pos.mpr h

/-- Claim C5 as amended: the per-player timing metrics of the engine analyzer
set time_consistency_score = max(0, 1 − CV), but the combined temporal metrics of the metrics calculator set time_consistency_score = CV itself, where CV
is the coefficient of variation (std/mean, 0 for mean 0) of the collected
positive move times. -/
theorem c5_consistency_scores (move_analyses : List MoveAnalysis)
    (h : temporal_times move_analyses ≠ []) :
    (analyzer_timing_metrics move_analyses).map
        (fun tm => tm.time_consistency_score) =
      some (max 0 (1 - coefficient_of_variation (temporal_times move_analyses))) ∧
    (calculate_temporal_metrics move_analyses).time_consistency_score =
      coefficient_of_variation (temporal_times move_analyses) := by
  have hpmt : player_move_times move_analyses = temporal_times move_analyses :=
    player_move_times_eq_temporal move_analyses
  have hmean : 0 < np_mean (temporal_times move_analyses) :=
    np_mean_pos _ h (temporal_times_pos move_analyses)
  have hcv : coefficient_of_variation (temporal_times move_analyses) =
      np_std (temporal_times move_analyses) /
        ((np_mean (temporal_times move_analyses) : ℚ) : ℝ) := by
    unfold coefficient_of_variation
    rw [if_neg (ne_of_gt hmean)]
  constructor
  · unfold analyzer_timing_metrics
    rw [hpmt, if_neg h]
    simp only [if_pos hmean, hcv]
    rfl
  · unfold calculate_temporal_metrics
    rw [if_neg h]
    simp only [if_pos hmean, hcv]

/-- Witness for the amended C5 theorem at two records with move times 1, 3. -/
theorem c5_consistency_scores_witness :
    temporal_times c5_witness_records ≠ [] ∧
    ((analyzer_timing_metrics c5_witness_records).map
        (fun tm => tm.time_consistency_score) =
      some (max 0 (1 - coefficient_of_variation (temporal_times c5_witness_records))) ∧
    (calculate_temporal_metrics c5_witness_records).time_consistency_score =
      coefficient_of_variation (temporal_times c5_witness_records)) :=
  ⟨by decide, c5_consistency_scores c5_witness_records (by decide)⟩

/-- Claim C5 counterexample: for two records with equal positive move times
the coefficient of variation is 0, so the claimed consistency score would
be max(0, 1 − 0) = 1, but the temporal metrics of the metrics calculator
report 0 (they return the CV itself). -/
theorem c5_consistency_counterexample :
    (calculate_temporal_metrics c5_records).time_consistency_score = 0 ∧
    max 0 (1 - coefficient_of_variation (temporal_times c5_records)) = 1 ∧
    (calculate_temporal_metrics c5_records).time_consistency_score ≠
      max 0 (1 - coefficient_of_variation (temporal_times c5_records)) := by
  have htt : temporal_times c5_records = [1, 1] := by decide
  have hm : np_mean [(1 : ℚ), 1] = 1 := by norm_num [np_mean]
  have hv : np_variance [(1 : ℚ), 1] = 0 := by norm_num [np_variance, np_mean]
  have hs : np_std [(1 : ℚ), 1] = 0 := by
    rw [np_std, hv]
    simp
  have hcv : coefficient_of_variation (temporal_times c5_records) = 0 := by
    rw [htt, coefficient_of_variation, if_neg (by rw [hm]; norm_num), hs, hm]
    norm_num
  have hscore : (calculate_temporal_metrics c5_records).time_consistency_score = 0 := by
    unfold calculate_temporal_metrics
    rw [htt]
    rw [if_neg (by simp)]
    simp only [if_pos (show (0 : ℚ) < np_mean [(1 : ℚ), 1] by rw [hm]; norm_num), hs, hm]
    norm_num
  refine ⟨hscore, by rw [hcv]; norm_num, by rw [hscore, hcv]; norm_num⟩

/-- Claim C8 evaluated at the failing input: the code reads the
`total_complexity` key, which is never written anywhere in the pipeline, so
both records land in the normal group, the critical group is empty and the
ratio is 1.0 with 0 critical positions — while the ratio described by the
claim over `normalized_complexity` is 10/2 = 5. -/
theorem c8_total_complexity_key_bug :
    (calculate_behavioral_metrics c8_records).critical_time_ratio = 1 ∧
    (calculate_behavioral_metrics c8_records).critical_positions_count = 0 ∧
    (calculate_behavioral_metrics c8_records).normal_positions_count = 2 ∧
    critical_times_spec c8_records = [10] ∧
    critical_time_ratio_spec c8_records = 5 ∧
    ¬ (calculate_behavioral_metrics c8_records).critical_time_ratio =
      critical_time_ratio_spec c8_records := by
  have hcrit : critical_position_times c8_records = [] := by
    norm_num [critical_position_times, c8_records, List.filterMap_cons]
  have hnormal : normal_position_times c8_records = [10, 2] := by
    norm_num [normal_position_times, c8_records, List.filterMap_cons]
  have hcs : critical_times_spec c8_records = [10] := by
    norm_num [critical_times_spec, c8_records, List.filterMap_cons]
  have hns : normal_times_spec c8_records = [2] := by
    norm_num [normal_times_spec, c8_records, List.filterMap_cons]
  have hratio : (calculate_behavioral_metrics c8_records).critical_time_ratio = 1 := by
    unfold calculate_behavioral_metrics
    rw [hcrit]
    simp
  have hspec : critical_time_ratio_spec c8_records = 5 := by
    unfold critical_time_ratio_spec
    rw [hcs, hns]
    rw [if_pos (by simp)]
    norm_num [np_mean]
  refine ⟨hratio, ?_, ?_, hcs, hspec, by rw [hratio, hspec]; norm_num⟩
  · unfold calculate_behavioral_metrics
    rw [hcrit]
    rfl
  · unfold calculate_behavioral_metrics
    rw [hnormal]
    rfl

/-- Invariant of the opening scan loop: started at index `i` with
accumulator `i − 1`, the result lies between `i − 1` and `i − 1 + fuel`,
every scanned index up to the result passes, and either the fuel ran out
or the next index fails. -/
theorem opening_go_spec (oracle : List String → Option ExplorerResponse)
    (moves : List String) :
    ∀ (fuel i : ℕ), 1 ≤ i →
      (i - 1 ≤ opening_go oracle moves fuel i (i - 1) ∧
        opening_go oracle moves fuel i (i - 1) ≤ i - 1 + fuel) ∧
      (∀ j, i ≤ j → j ≤ opening_go oracle moves fuel i (i - 1) →
        passes_theory oracle moves j = true) ∧
      (opening_go oracle moves fuel i (i - 1) = i - 1 + fuel ∨
        passes_theory oracle moves (opening_go oracle moves fuel i (i - 1) + 1) = false) := by
  intro fuel
  induction fuel with
  | zero =>
    intro i hi
    have hres : opening_go oracle moves 0 i (i - 1) = i - 1 := rfl
    refine ⟨⟨le_refl _, by omega⟩, ?_, Or.inl (by omega)⟩
    intro j hij hj
    rw [hres] at hj
    omega
  | succ fuel ih =>
    intro i hi
    cases hor : oracle (moves.take i) with
    | none =>
      have hres : opening_go oracle moves (fuel + 1) i (i - 1) = i - 1 := by
        simp [opening_go, hor]
      have hpass : passes_theory oracle moves i = false := by
        simp [passes_theory, hor]
      refine ⟨⟨le_of_eq hres.symm, by omega⟩, ?_, Or.inr ?_⟩
      · intro j hij hj
        rw [hres] at hj
        omega
      · rw [hres, Nat.sub_add_cancel hi]
        exact hpass
    | some response =>
      by_cases hth : 10 ≤ total_games response
      · have hres : opening_go oracle moves (fuel + 1) i (i - 1) =
            opening_go oracle moves fuel (i + 1) i := by
          simp [opening_go, hor, hth]
        have hpass : passes_theory oracle moves i = true := by
          simp [passes_theory, hor, hth]
        have ih' := ih (i + 1) (by omega)
        rw [show i + 1 - 1 = i from rfl] at ih'
        obtain ⟨⟨hlo, hhi⟩, hall, hlast⟩ := ih'
        refine ⟨⟨by rw [hres]; omega, by rw [hres]; omega⟩, ?_, ?_⟩
        · intro j hij hj
          rw [hres] at hj
          rcases eq_or_lt_of_le hij with rfl | hlt
          · exact hpass
          · exact hall j hlt hj
        · rcases hlast with heq | hfail
          · exact Or.inl (by rw [hres, heq]; omega)
          · exact Or.inr (by rw [hres]; exact hfail)
      · have hres : opening_go oracle moves (fuel + 1) i (i - 1) = i - 1 := by
          simp [opening_go, hor, hth]
        have hpass : passes_theory oracle moves i = false := by
          simp [passes_theory, hor, hth]
        refine ⟨⟨le_of_eq hres.symm, by omega⟩, ?_, Or.inr ?_⟩
        · intro j hij hj
          rw [hres] at hj
          omega
        · rw [hres, Nat.sub_add_cancel hi]
          exact hpass

/-- Claim C4 as amended: provided the game is shorter than the scan cap
(max_moves = 20 in lite mode, 40 otherwise; the loop only examines
i < min(len+1, max_moves)), the scan stops at the first prefix whose total
game count drops below 10 or whose query returns nothing,
openingMoveCount is the last passing i (0 if none passed), and the
deviation move index is openingMoveCount + 1 when that is ≤ the number of
moves, else absent. -/
theorem c4_deviation_scan (oracle : List String → Option ExplorerResponse)
    (lite_mode : Bool) (moves : List String)
    (h : moves.length + 1 ≤ (if lite_mode then 20 else 40)) :
    (∀ j, 1 ≤ j → j ≤ get_opening_moves_count oracle lite_mode moves →
      passes_theory oracle moves j = true) ∧
    (get_opening_moves_count oracle lite_mode moves = moves.length ∨
      passes_theory oracle moves (get_opening_moves_count oracle lite_mode moves + 1) = false) ∧
    get_opening_moves_count oracle lite_mode moves ≤ moves.length ∧
    (analyze_opening_deviation oracle lite_mode moves).opening_moves_count =
      get_opening_moves_count oracle lite_mode moves ∧
    (analyze_opening_deviation oracle lite_mode moves).total_moves = moves.length ∧
    (analyze_opening_deviation oracle lite_mode moves).deviation_move =
      (if get_opening_moves_count oracle lite_mode moves + 1 ≤ moves.length
       then some (get_opening_moves_count oracle lite_mode moves + 1) else none) := by
  have hcount : get_opening_moves_count oracle lite_mode moves =
      opening_go oracle moves moves.length 1 0 := by
    simp only [get_opening_moves_count]
    rw [min_eq_left h]
    norm_num
  have hspec := opening_go_spec oracle moves moves.length 1 (le_refl 1)
  rw [show (1 : ℕ) - 1 = 0 from rfl] at hspec
  obtain ⟨⟨hlo, hhi⟩, hall, hlast⟩ := hspec
  refine ⟨?_, ?_, ?_, rfl, rfl, ?_⟩
  · intro j h1 h2
    rw [hcount] at h2
    exact hall j h1 h2
  · rw [hcount]
    rcases hlast with heq | hfail
    · exact Or.inl (by omega)
    · exact Or.inr hfail
  · rw [hcount]
    omega
  · show (if get_opening_moves_count oracle lite_mode moves < moves.length
        then some (get_opening_moves_count oracle lite_mode moves + 1) else none) = _
    split_ifs with h1 h2 <;> first | rfl | omega

/-- Witness for the amended C4 theorem at the example of the spec (oracle totals
50, 40, 5 for the prefixes of a 3-move game): openingMoveCount = 2 and
deviation move index = 3. -/
theorem c4_deviation_scan_witness :
    c4_example_moves.length + 1 ≤ (if false then 20 else 40) ∧
    get_opening_moves_count c4_example_oracle false c4_example_moves = 2 ∧
    (analyze_opening_deviation c4_example_oracle false c4_example_moves).deviation_move =
      some 3 ∧
    ((∀ j, 1 ≤ j → j ≤ get_opening_moves_count c4_example_oracle false c4_example_moves →
      passes_theory c4_example_oracle c4_example_moves j = true) ∧
    (get_opening_moves_count c4_example_oracle false c4_example_moves = c4_example_moves.length ∨
      passes_theory c4_example_oracle c4_example_moves
        (get_opening_moves_count c4_example_oracle false c4_example_moves + 1) = false) ∧
    get_opening_moves_count c4_example_oracle false c4_example_moves ≤ c4_example_moves.length ∧
    (analyze_opening_deviation c4_example_oracle false c4_example_moves).opening_moves_count =
      get_opening_moves_count c4_example_oracle false c4_example_moves ∧
    (analyze_opening_deviation c4_example_oracle false c4_example_moves).total_moves =
      c4_example_moves.length ∧
    (analyze_opening_deviation c4_example_oracle false c4_example_moves).deviation_move =
      (if get_opening_moves_count c4_example_oracle false c4_example_moves + 1 ≤
          c4_example_moves.length
       then some (get_opening_moves_count c4_example_oracle false c4_example_moves + 1)
       else none)) :=
  ⟨by decide, by decide, by decide,
    c4_deviation_scan c4_example_oracle false c4_example_moves (by decide)⟩

/-- Claim C4 counterexample: for a 20-move game in lite mode whose every
prefix passes the threshold, the loop cap min(len+1, 20) stops the scan at
i = 19, so openingMoveCount is 19 even though move 20 also passes (the
last passing i of the claim would be 20), and a deviation move index 20 is
reported. -/
theorem c4_cap_counterexample :
    passes_theory c4_all_pass_oracle c4_long_game 20 = true ∧
    get_opening_moves_count c4_all_pass_oracle true c4_long_game = 19 ∧
    get_opening_moves_count c4_all_pass_oracle true c4_long_game ≠ 20 ∧
    (analyze_opening_deviation c4_all_pass_oracle true c4_long_game).deviation_move =
      some 20 := by
  refine ⟨by decide, by decide, by decide, by decide⟩

/-- Claim C6: for every candidate list with at least 2 entries, the PCS
score equals max(0, e1 − e2) + max(0, e1 − e3) / 2 over the rank-ordered
top-3 evaluations, where a missing third entry repeats the last known value
and mate evaluations are resolved to ±1000 by mate direction
(`resolve_score`) before the formula is applied. -/
theorem c6_pcs_formula (tma : List (Option EngineScore)) (h : 2 ≤ tma.length) :
    calculate_pcs_score tma =
      max 0 (spec_e1 tma - spec_e2 tma) + max 0 (spec_e1 tma - spec_e3 tma) / 2 := by
  match tma with
  | a :: b :: rest =>
    cases rest with
    | nil =>
        simp [calculate_pcs_score, pad_scores, spec_e1, spec_e2, spec_e3, List.getD]
    | cons c rest' =>
        simp [calculate_pcs_score, pad_scores, spec_e1, spec_e2, spec_e3, List.getD,
          List.take_succ_cons]

/-- Witness for C6 at a concrete candidate list containing a mate-for and a
mate-against dictionary score: e1 = 1000, e2 = 20, e3 = −1000, so the
formula yields 980 + 2000 / 2 = 1980. -/
theorem c6_pcs_formula_witness :
    2 ≤ ([some (EngineScore.dict (some 3) none), some (EngineScore.num 20),
          some (EngineScore.dict (some (-2)) (some 5))] : List (Option EngineScore)).length ∧
    calculate_pcs_score [some (EngineScore.dict (some 3) none), some (EngineScore.num 20),
        some (EngineScore.dict (some (-2)) (some 5))] =
      max 0 (spec_e1 [some (EngineScore.dict (some 3) none), some (EngineScore.num 20),
          some (EngineScore.dict (some (-2)) (some 5))] -
        spec_e2 [some (EngineScore.dict (some 3) none), some (EngineScore.num 20),
          some (EngineScore.dict (some (-2)) (some 5))]) +
      max 0 (spec_e1 [some (EngineScore.dict (some 3) none), some (EngineScore.num 20),
          some (EngineScore.dict (some (-2)) (some 5))] -
        spec_e3 [some (EngineScore.dict (some 3) none), some (EngineScore.num 20),
          some (EngineScore.dict (some (-2)) (some 5))]) / 2 :=
  ⟨by decide, c6_pcs_formula _ (by decide)⟩

/-- Claim C7: the complexity category is trivial for pcs < 30, balanced for
pcs < 80, critical for pcs < 150, chaotic otherwise; and the assignment is
monotone with respect to the order trivial < balanced < critical < chaotic. -/
theorem c7_category_thresholds_monotone :
    (∀ s : ℚ, get_pcs_category s =
      if s < 30 then "trivial" else if s < 80 then "balanced"
      else if s < 150 then "critical" else "chaotic") ∧
    (∀ a b : ℚ, a ≤ b →
      category_ord (get_pcs_category a) ≤ category_ord (get_pcs_category b)) := by
  refine ⟨fun s => rfl, fun a b hab => ?_⟩
  simp only [get_pcs_category]
  split_ifs <;> simp [category_ord] <;> linarith

/-- Witness for the C7 monotonicity part at 20 ≤ 100. -/
theorem c7_category_thresholds_monotone_witness :
    (20 : ℚ) ≤ 100 ∧
    category_ord (get_pcs_category 20) ≤ category_ord (get_pcs_category 100) :=
  ⟨by norm_num, c7_category_thresholds_monotone.2 20 100 (by norm_num)⟩

/-- Claim C1 counterexample: on an input with zero candidates and zero
legal moves, `calculate_complexity` does not return the documented default:
it returns normalized_complexity = 0 and decision_difficulty = 0 instead of
0.3 and 0.3 (the default is produced only by the exception handler). -/
theorem c1_default_counterexample :
    (([] : List (Option EngineScore)).length < 2 ∧ empty_board.legal_moves.length = 0) ∧
    (calculate_complexity (fun _ => 0) empty_board []).pcs_score = 0 ∧
    (calculate_complexity (fun _ => 0) empty_board []).pcs_category = "trivial" ∧
    (calculate_complexity (fun _ => 0) empty_board []).normalized_complexity = 0 ∧
    (calculate_complexity (fun _ => 0) empty_board []).decision_difficulty = 0 ∧
    calculate_complexity (fun _ => 0) empty_board [] ≠ get_default_complexity := by
  have hnorm : (calculate_complexity (fun _ => 0) empty_board []).normalized_complexity = 0 := by
    norm_num [calculate_complexity, normalize_complexity, calculate_pcs_score,
      calculate_tactical_density, calculate_choice_entropy, calculate_strategic_factors,
      analyze_pawn_structure, analyze_king_safety, analyze_material_imbalance,
      empty_board, min_def, max_def]
  refine ⟨⟨by decide, by decide⟩, rfl, rfl, hnorm, ?_, ?_⟩
  · norm_num [calculate_complexity, calculate_decision_difficulty, calculate_pcs_score,
      empty_board, min_def, max_def]
  · intro hEq
    have hfield := congrArg ComplexityResult.normalized_complexity hEq
    rw [hnorm] at hfield
    norm_num [get_default_complexity] at hfield

/-- Claim C1 as amended: with fewer than 2 candidates the scorer does not
fail and returns pcs_score = 0 and category trivial, but
normalized_complexity and decision_difficulty are still computed from the
board: in particular decision_difficulty = 0.2 · min(1, legalMoves/40); the
documented 0.3/0.3 default is returned only by the exception handler. -/
theorem c1_insufficient_candidates (log2q : ℚ → ℚ) (board : Board)
    (top_moves_analysis : List (Option EngineScore))
    (h : top_moves_analysis.length < 2) :
    (calculate_complexity log2q board top_moves_analysis).pcs_score = 0 ∧
    (calculate_complexity log2q board top_moves_analysis).pcs_category = "trivial" ∧
    (calculate_complexity log2q board top_moves_analysis).decision_difficulty =
      min 1 ((board.legal_moves.length : ℚ) / 40) * 0.2 := by
  have hpcs : calculate_pcs_score top_moves_analysis = 0 := by
    unfold calculate_pcs_score
    rw [if_pos h]
  have h40 : (0 : ℚ) ≤ (board.legal_moves.length : ℚ) / 40 := by positivity
  have hmf0 : (0 : ℚ) ≤ min 1 ((board.legal_moves.length : ℚ) / 40) :=
    le_min (by norm_num) h40
  have hmf1 : min 1 ((board.legal_moves.length : ℚ) / 40) ≤ 1 := min_le_left _ _
  refine ⟨by simp [calculate_complexity, hpcs], ?_, ?_⟩
  · simp [calculate_complexity, hpcs]
    norm_num [get_pcs_category]
  · simp only [calculate_complexity, hpcs, calculate_decision_difficulty]
    norm_num
    rw [min_eq_right (by linarith), max_eq_right (by linarith)]

/-- Witness for the amended C1 theorem at the empty board and empty
candidate list. -/
theorem c1_insufficient_candidates_witness :
    (([] : List (Option EngineScore)).length < 2) ∧
    ((calculate_complexity (fun _ => 0) empty_board []).pcs_score = 0 ∧
     (calculate_complexity (fun _ => 0) empty_board []).pcs_category = "trivial" ∧
     (calculate_complexity (fun _ => 0) empty_board []).decision_difficulty =
       min 1 ((empty_board.legal_moves.length : ℚ) / 40) * 0.2) :=
  ⟨by decide, c1_insufficient_candidates (fun _ => 0) empty_board [] (by decide)⟩

end PgnCheat
